import Mathlib

/-!
# ILSim — verification of the command/response engine and amplifier model

A shallow embedding of the parts of the ILSim sensor-bus simulator
(`ilsim/communication.py`, `ilsim/sensor.py`, `ilsim/errors.py`) that the
specification's claims talk about, together with proofs settling the claims.

Modelling conventions:
* Python `float` millimeter values are modelled as exact rationals `ℚ`.
* A Python value that may be `None` (`float | None`) is an `Option ℚ`.
* Python exceptions raised by register handlers are modelled with
  `Except ℕ _`, the `ℕ` being the wire error code carried by the
  exception class (`errors.py`).
* Wire text is modelled as `List Char`.
* The background threads are irrelevant to the claims; the EEPROM deadline
  field `_next_eeprom_write` is modelled explicitly, with the current time
  `now` passed as an argument wherever the source calls `time.time()`.
-/

set_option autoImplicit false

namespace ILSim

/-- ASCII decimal digit test (the regex class `\d` restricted to ASCII). -/
def isAsciiDigit (c : Char) : Bool :=
  decide ('0' ≤ c) && decide (c ≤ '9')

/-- Minimal decimal digit list of a natural number (general, fuel-driven;
only used for numbers too wide for their padded field, which no wire value
of this program ever is). -/
def natToDigitsAux (fuel n : ℕ) : List Char :=
  match fuel with
  | 0 => []
  | fuel + 1 =>
    if n = 0 then []
    else natToDigitsAux fuel (n / 10) ++ [Char.ofNat (48 + n % 10)]

/-- Minimal decimal digit list of a natural number; `['0']` for zero. -/
def natToDigits (n : ℕ) : List Char :=
  if n = 0 then ['0'] else natToDigitsAux n n

/-- Exactly `w` decimal digit characters of `n` (most significant first,
leading zeros). Agrees with the minimal digits of `n` padded with zeros on
the left whenever `n < 10 ^ w`. -/
def fixedDigits (w n : ℕ) : List Char :=
  (List.range w).reverse.map (fun i => Char.ofNat (48 + n / 10 ^ i % 10))

/-- Python `format(n, "0>w")` on a natural number: zero-pad on the left to
width `w`, growing beyond `w` if the number is too wide. -/
def pyPadNum (w n : ℕ) : List Char :=
  if n < 10 ^ w then fixedDigits w n else natToDigits n

/-- Python `format(n, "+0wd")` on an integer: explicit sign followed by the
decimal digits zero-padded so that the total width is `w` (growing beyond
`w` if the number is too wide).  The wire format uses `w = 10`, a sign plus
nine digits. -/
def pySignedPad (w : ℕ) (n : ℤ) : List Char :=
  (if n < 0 then '-' else '+')
    :: (if n.natAbs < 10 ^ (w - 1) then fixedDigits (w - 1) n.natAbs
        else natToDigits n.natAbs)

/-- A request accepted by the communication unit's command grammar
(`CommunicationUnit.valid_query_regex`).  Digit fields are kept as the raw
character lists captured by the regex groups. -/
inductive Command where
  | M0 : Command
  | MS : Command
  | SR (id q : List Char) : Command
  | SW (id q sv : List Char) : Command
  | FR (id q : List Char) : Command
deriving DecidableEq

/-- The two-character mnemonic of a command, as it appears on the wire. -/
def Command.mnemonic : Command → List Char
  | .M0 => ['M', '0']
  | .MS => ['M', 'S']
  | .SR _ _ => ['S', 'R']
  | .SW _ _ _ => ['S', 'W']
  | .FR _ _ => ['F', 'R']

/-- `CommunicationUnit.valid_query_regex.fullmatch`: the anchored regex
`(?:M0|MS|SR,(\d{2}),(\d{3})|SW,(\d{2}),(\d{3}),([+-]\d{9})|FR,(\d{2}),(\d{3}))\r\n`
as a parser.  Every field width is fixed, so the regex is equivalent to
this finite case analysis on the request line. -/
def parseQuery (l : List Char) : Option Command :=
  if l = ['M', '0', '\r', '\n'] then some .M0
  else if l = ['M', 'S', '\r', '\n'] then some .MS
  else
    match l with
    | 'S' :: 'R' :: ',' :: a :: b :: ',' :: c :: d :: e :: ['\r', '\n'] =>
      if ([a, b, c, d, e].all isAsciiDigit) then some (.SR [a, b] [c, d, e])
      else none
    | 'S' :: 'W' :: ',' :: a :: b :: ',' :: c :: d :: e :: ','
        :: sg :: v1 :: v2 :: v3 :: v4 :: v5 :: v6 :: v7 :: v8 :: v9
        :: ['\r', '\n'] =>
      if ([a, b, c, d, e, v1, v2, v3, v4, v5, v6, v7, v8, v9].all isAsciiDigit)
          && (sg == '+' || sg == '-') then
        some (.SW [a, b] [c, d, e] [sg, v1, v2, v3, v4, v5, v6, v7, v8, v9])
      else none
    | 'F' :: 'R' :: ',' :: a :: b :: ',' :: c :: d :: e :: ['\r', '\n'] =>
      if ([a, b, c, d, e].all isAsciiDigit) then some (.FR [a, b] [c, d, e])
      else none
    | _ => none

/-- The error reply `ER,<cmd2>,<ccc>\r\n` built by
`CommunicationUnit.handle_query`, where `cmd2` is `translated_query[0:2]`
(the leading two characters of the request line) and `ccc` the error code
zero-padded to three characters. -/
def errorReply (query : List Char) (code : ℕ) : List Char :=
  'E' :: 'R' :: ',' :: (query ++ ',' :: (pyPadNum 3 code ++ ['\r', '\n']))

/-- Result of the validation/internal-error stage of
`CommunicationUnit.handle_query` (source lines 249-289).  `reply` is an
error reply produced before dispatch; `dispatch` means control reaches
`CommunicationUnit.response`, the only place where register reads and
writes are performed. -/
inductive HandleResult where
  | reply (s : List Char) : HandleResult
  | dispatch (cmd : Command) : HandleResult
deriving DecidableEq

/-- `CommunicationUnit.handle_query` up to dispatch: reject lines that do
not match the grammar with error 255, then reject everything with error
254 while the unit's `internal_error` is set, and only then hand the
parsed command to `response`. -/
def handle_query (internal_error : ℕ) (line : List Char) : HandleResult :=
  let query := line.take 2
  match parseQuery line with
  | none => .reply (errorReply query 255)
  | some cmd =>
    if internal_error ≠ 0 then .reply (errorReply query 254)
    else .dispatch cmd

/-- `OperationResult` (sensor.py): three stage result of an operation. -/
inductive OperationResult where
  | OPERATING : OperationResult
  | NORMAL_TERMINATION : OperationResult
  | ABNORMAL_TERMINATION : OperationResult
deriving DecidableEq

/-- `Bank` (sensor.py): one set of banked values. -/
structure Bank where
  threshold_high : ℚ
  threshold_low : ℚ
  shift_target : ℚ
  analog_upper_limit : ℚ
  analog_lower_limit : ℚ
deriving DecidableEq

/-- External-input function assignment values shared by the four
`ExternalInputYSetting` enums: `BANK_A = 1`, `BANK_B = 2`,
`LASER_EMISSION_STOP = 3` on every line (the remaining values differ per
line but none of them is referenced by the embedded code). -/
def EXT_BANK_A : ℕ := 1

/-- `BANK_B` value of the `ExternalInputYSetting` enums. -/
def EXT_BANK_B : ℕ := 2

/-- `LASER_EMISSION_STOP` value of the `ExternalInputYSetting` enums. -/
def EXT_LASER_EMISSION_STOP : ℕ := 3

/-- `ILError.Sensor_Head` bit value (sensor.py). -/
def ILError_Sensor_Head : ℕ := 4

/-- The slice of `SensorUnit` state (sensor.py) that the claims under
verification read or write.  Pipeline stages are stored exactly as the
source stores them (`_raw_value`, `_p_v_value`, `_calc_value`,
`_hold_value`/`_hold_peak`/`_hold_bottom`, `_timing_input`,
`_error_during_sampling`); `internal_error` is the `ILError` bit word;
`next_eeprom_write` is `_next_eeprom_write`.  Fields holding an `IntEnum`
in the source (display modes, filter and cycle settings, calculation and
scaling modes, system parameters, …) are stored as the enum's integer
value (`ℤ`). -/
structure SensorUnit where
  internal_error : ℕ
  raw_value : Option ℚ
  judgment_value : Option ℚ
  decimal_position : ℕ
  stored_laser_emission_stop : Bool
  external_input_use_user_settings : Bool
  external_input_1 : Bool
  external_input_2 : Bool
  external_input_3 : Bool
  external_input_4 : Bool
  external_input_1_setting : ℕ
  external_input_2_setting : ℕ
  external_input_3_setting : ℕ
  external_input_4_setting : ℕ
  switch_banks_via_external_input : Bool
  active_bank_setting : Fin 4
  banks : Fin 4 → Bank
  zero_shift_saved_in_memory : Bool
  zero_shifting_result : OperationResult
  eeprom_write_result : OperationResult
  next_eeprom_write : Option ℚ
  timing_input : Bool
  calculation_value : Option ℚ
  hold_value : Option ℚ
  hold_peak : Option ℚ
  hold_bottom : Option ℚ
  currently_sampling : Bool
  error_during_sampling : Bool
  is_main_unit : Bool
  key_locked : Bool
  stored_timing_input : Bool
  subdisplay_screen_mode : ℤ
  future_transistor_mode : ℤ
  future_analog_output_mode : ℤ
  transistor_mode : ℤ
  analog_output_mode : ℤ
  tolerance_setting_range : ℚ
  calibration_use_user_settings : Bool
  calibration_set_1 : ℚ
  calibration_set_2 : ℚ
  calc_calibration_mode : ℤ
  calc_2p_calibration_set_1 : ℚ
  calc_2p_calibration_set_2 : ℚ
  calc_3p_calibration_set_1 : ℚ
  calc_3p_calibration_set_3 : ℚ
  calculation_mode : ℤ
  reversed_measurement_direction : Bool
  sampling_cycle : ℤ
  filter_setting : ℤ
  output_mode_normally_closed : Bool
  hold_function_setting : ℤ
  auto_trigger_level : ℚ
  timing_input_on_edge : Bool
  delay_timer_setting : ℤ
  timer_duration : ℤ
  hysteresis : ℚ
  analog_output_scaling_mode : ℤ
  free_analog_upper_limit : ℚ
  free_analog_lower_limit : ℚ
  mutual_interference_prevention_active : Bool
  display_digit_setting : ℤ
  power_saving_mode : ℤ
  head_display_mode : ℤ
  display_color : ℤ
  diff_count_filter_timer_duration : ℤ
  high_pass_cutoff_frequency : ℤ
  alarm_setting : ℤ
  alarm_count : ℤ

/-- `SensorUnit.int_to_mm`: convert protocol integers to millimeter
values (`value / 10 ** decimal_position`). -/
def int_to_mm (decimal_position : ℕ) (value : ℤ) : ℚ :=
  (value : ℚ) / 10 ^ decimal_position

/-- Python `int()` applied to a rational: truncation toward zero. -/
def pyInt (q : ℚ) : ℤ :=
  if 0 ≤ q then ⌊q⌋ else ⌈q⌉

namespace SensorUnit

/-- `upper_bound`, set at construction to `int_to_mm(99999)`. -/
def upper_bound (s : SensorUnit) : ℚ :=
  int_to_mm s.decimal_position 99999

/-- `lower_bound`, set at construction to `int_to_mm(-99999)`. -/
def lower_bound (s : SensorUnit) : ℚ :=
  int_to_mm s.decimal_position (-99999)

/-- `SensorUnit.mm_to_int`: convert millimeter values to protocol
integers. -/
def mm_to_int (s : SensorUnit) (value : Option ℚ) : ℤ :=
  match value with
  | none => -99998
  | some v =>
    if v > s.upper_bound then 99999
    else if v < s.lower_bound then -99999
    else pyInt (v * 10 ^ s.decimal_position)

/-- `SensorUnit.laser_active`: the laser is off when an external input
assigned to laser-emission-stop is high (and user settings are in use),
when the stored stop flag is set, or when the error word equals exactly
`Sensor_Head` (the source compares with `==`, not as a bit test). -/
def laser_active (s : SensorUnit) : Bool :=
  !((s.external_input_use_user_settings
      && ((s.external_input_1_setting == EXT_LASER_EMISSION_STOP
            && s.external_input_1)
        || (s.external_input_2_setting == EXT_LASER_EMISSION_STOP
            && s.external_input_2)
        || (s.external_input_3_setting == EXT_LASER_EMISSION_STOP
            && s.external_input_3)
        || (s.external_input_4_setting == EXT_LASER_EMISSION_STOP
            && s.external_input_4)))
    || s.stored_laser_emission_stop
    || (s.internal_error == ILError_Sensor_Head))

/-- `SensorUnit.value_invalid`: the adjusted value displays `----`. -/
def value_invalid (s : SensorUnit) : Bool :=
  !s.laser_active || s.judgment_value.isNone

/-- `SensorUnit.value_under_range`: the adjusted value displays `-FFFF`. -/
def value_under_range (s : SensorUnit) : Bool :=
  match s.judgment_value with
  | none => false
  | some v => decide (v < s.lower_bound)

/-- `SensorUnit.value_over_range`: the adjusted value displays `+FFFF`. -/
def value_over_range (s : SensorUnit) : Bool :=
  match s.judgment_value with
  | none => false
  | some v => decide (v > s.upper_bound)

/-- `SensorUnit.judgment_value_for_communication_unit`: the adjusted value
converted to an integer with the sentinel constants of the source
(`CONSTANT_ERROR = +100000000`, `CONSTANT_INVALID = -99999998`,
`CONSTANT_OVERRANGE = CONSTANT_UNDERRANGE = +99999999`). -/
def judgment_value_for_communication_unit (s : SensorUnit) : ℤ :=
  if s.internal_error ≠ 0 then 100000000
  else if s.value_invalid then -99999998
  else if s.value_over_range then 99999999
  else if s.value_under_range then 99999999
  else s.mm_to_int s.judgment_value

/-- `SensorUnit.stringified_value`: the measurement value formatted for
the M0/MS commands, `f"{value:+010d}"`. -/
def stringified_value (s : SensorUnit) : List Char :=
  pySignedPad 10 s.judgment_value_for_communication_unit

/-- `bank_a` local of `SensorUnit.active_bank_index`: OR over the
external input lines whose function assignment is `BANK_A`, gated by
`external_input_use_user_settings`. -/
def bank_a (s : SensorUnit) : Bool :=
  s.external_input_use_user_settings
    && ((s.external_input_1_setting == EXT_BANK_A && s.external_input_1)
      || (s.external_input_2_setting == EXT_BANK_A && s.external_input_2)
      || (s.external_input_3_setting == EXT_BANK_A && s.external_input_3)
      || (s.external_input_4_setting == EXT_BANK_A && s.external_input_4))

/-- `bank_b` local of `SensorUnit.active_bank_index`: OR over the
external input lines whose function assignment is `BANK_B`, gated by
`external_input_use_user_settings`. -/
def bank_b (s : SensorUnit) : Bool :=
  s.external_input_use_user_settings
    && ((s.external_input_1_setting == EXT_BANK_B && s.external_input_1)
      || (s.external_input_2_setting == EXT_BANK_B && s.external_input_2)
      || (s.external_input_3_setting == EXT_BANK_B && s.external_input_3)
      || (s.external_input_4_setting == EXT_BANK_B && s.external_input_4))

/-- `SensorUnit.active_bank_index`: when
`switch_banks_via_external_input` is set the source computes
`bank_index = 2 * bank_b + 1 * bank_a` into a local variable, but the
method returns the stored `active_bank_setting` unconditionally; the
computed index is discarded (dead code), so the translation is just the
stored setting. -/
def active_bank_index (s : SensorUnit) : Fin 4 :=
  s.active_bank_setting

/-- `SensorUnit.active_bank`: the bank selected by `active_bank_index`. -/
def active_bank (s : SensorUnit) : Bank :=
  s.banks s.active_bank_index

/-- `SensorUnit.threshold_high` property: the active bank's HIGH
threshold. -/
def threshold_high (s : SensorUnit) : ℚ :=
  s.active_bank.threshold_high

/-- `SensorUnit.threshold_low` property: the active bank's LOW
threshold. -/
def threshold_low (s : SensorUnit) : ℚ :=
  s.active_bank.threshold_low

/-- `SensorUnit.shift_target` property: the active bank's zero shift
target. -/
def shift_target (s : SensorUnit) : ℚ :=
  s.active_bank.shift_target

/-- `SensorUnit.read_043_bank_status`: indicates the currently active
bank number. -/
def read_043_bank_status (s : SensorUnit) : ℤ :=
  (s.active_bank_index : ℤ)

/-- `SensorUnit.start_eeprom_write`: set the result flag to OPERATING and
push `_next_eeprom_write` to `time.time() + write_duration` unless the
stored deadline is already later (`if self._next_eeprom_write is None or
self._next_eeprom_write < next_write`).  `now` stands for `time.time()`;
the source's default `write_duration` is 2.0 seconds. -/
def start_eeprom_write (now write_duration : ℚ) (s : SensorUnit) :
    SensorUnit :=
  { s with
    eeprom_write_result := .OPERATING
    next_eeprom_write := some
      (match s.next_eeprom_write with
       | none => now + write_duration
       | some o =>
         if o < now + write_duration then now + write_duration else o) }

/-- `SensorUnit.change_shift_target`: write the zero-shift target of the
bank at `index` (defaulting to `active_bank_index`) and arm the EEPROM
scheduler — with `write_duration=0` — only when
`zero_shift_saved_in_memory` is set. -/
def change_shift_target (now : ℚ) (value : ℚ) (index : Option (Fin 4))
    (s : SensorUnit) : SensorUnit :=
  let i := index.getD s.active_bank_index
  let newBank := { s.banks i with shift_target := value }
  let s1 := { s with banks := Function.update s.banks i newBank }
  if s.zero_shift_saved_in_memory then s1.start_eeprom_write now 0 else s1

/-- `SensorUnit.write_001_zero_shift_execution_request`: any setting
value other than 1 raises error 009; otherwise the result flag goes to
OPERATING, then to ABNORMAL_TERMINATION when the raw value is absent
(returning normally — no exception is raised in that case), else the raw
value becomes the active bank's shift target and the flag goes to
NORMAL_TERMINATION. -/
def write_001_zero_shift_execution_request (now : ℚ) (s : SensorUnit)
    (setting_data : ℤ) : Except ℕ SensorUnit :=
  if setting_data ≠ 1 then .error 9
  else
    let s1 := { s with zero_shifting_result := .OPERATING }
    match s1.raw_value with
    | none => .ok { s1 with zero_shifting_result := .ABNORMAL_TERMINATION }
    | some v =>
      .ok { s1.change_shift_target now v none with
            zero_shifting_result := .NORMAL_TERMINATION }

end SensorUnit

/-- The slice of `CommunicationUnit` state (communication.py) that the
claims read: the ordered vector of connected sensors, the bus
`internal_error` (a `DLEN1Error` code) and the mask flag. -/
structure CommunicationUnit where
  connected_sensors : List SensorUnit
  internal_error : ℕ
  mask_sensor_status : Bool

namespace CommunicationUnit

/-- `CommunicationUnit.read_044_to_058_current_value_id_Y`: the judgment
value of the sensor at position `id` of the vector, or error 022
(`IDOutsideValidRangeError`) when the index misses the vector. -/
def read_044_to_058_current_value_id_Y (c : CommunicationUnit) (id : ℕ) :
    Except ℕ ℤ :=
  match c.connected_sensors[id]? with
  | some u => .ok u.judgment_value_for_communication_unit
  | none => .error 22

/-- The last line of `CommunicationUnit.response_SR` for an integer
handler result: `f"SR,{id:0>2},{query_data:0>3},{output:+010d}\r\n"`. -/
def response_SR_line (id query_data : ℕ) (output : ℤ) : List Char :=
  'S' :: 'R' :: ',' :: (pyPadNum 2 id ++ ',' :: (pyPadNum 3 query_data
    ++ ',' :: (pySignedPad 10 output ++ ['\r', '\n'])))

end CommunicationUnit

/-- The key set of `SensorUnit.read_mapping` (`init_mappings`): the
literal keys of the dictionary plus the per-bank registers
`65 + 5 * i + k` for `i < 4`, `k < 5`, i.e. 65..84. -/
def sensorReadKeys : List ℕ :=
  [33, 36, 37, 38, 39, 40, 41, 42, 43, 44, 50, 51, 52, 53, 54, 55, 56,
   60, 61, 97, 98, 99, 100, 104, 105, 106, 107, 108, 109, 110, 111, 112,
   113, 114, 129, 131, 132, 133, 134, 136, 137, 138, 139, 140, 141, 142,
   143, 144, 145, 146, 147, 148, 149, 150, 152, 153, 154, 155, 156, 157,
   158, 159, 161, 162, 193, 194, 195, 200, 215, 216, 217]
    ++ (List.range 20).map (fun k => 65 + k)

/-- The key set of `SensorUnit.write_mapping` (`init_mappings`): the
literal keys of the dictionary plus the per-bank registers 65..84. -/
def sensorWriteKeys : List ℕ :=
  [1, 2, 3, 5, 6, 14, 15, 16, 17, 18, 19, 20, 21, 22, 23, 24, 25, 26,
   27, 28, 97, 98, 99, 100, 104, 105, 106, 107, 108, 109, 110, 111, 112,
   113, 114, 129, 131, 132, 133, 134, 136, 137, 138, 139, 140, 141, 142,
   143, 144, 145, 146, 147, 148, 149, 150, 152, 153, 154, 155, 156, 157,
   158, 159, 161, 162]
    ++ (List.range 20).map (fun k => 65 + k)

/-- Outcome of the dispatch step of `SensorUnit.handle_read` /
`SensorUnit.handle_write`: either a handler is found and the access
proceeds (the handler runs), or a `CommunicationException` with the given
wire code is raised before any handler runs. -/
inductive DispatchOutcome where
  | handled : DispatchOutcome
  | error (code : ℕ) : DispatchOutcome
deriving DecidableEq

/-- The dispatch step of `SensorUnit.handle_read`: query numbers above
223 raise `QueryOutsideValidRangeError` (020); a key of `read_mapping`
dispatches to its handler; a key of `write_mapping` only raises
`QueryReadProtectedError` (016); anything else raises
`InaccessibleIDOrQueryError` (031). -/
def sensor_handle_read_dispatch (query_data : ℕ) : DispatchOutcome :=
  if query_data > 223 then .error 20
  else if query_data ∈ sensorReadKeys then .handled
  else if query_data ∈ sensorWriteKeys then .error 16
  else .error 31

/-- The dispatch step of `SensorUnit.handle_write`: query numbers above
223 raise `QueryOutsideValidRangeError` (020); a key of `write_mapping`
dispatches to its handler; a key of `read_mapping` only raises
`QueryWriteProtectedError` (014); anything else raises
`InaccessibleIDOrQueryError` (031). -/
def sensor_handle_write_dispatch (query_data : ℕ) : DispatchOutcome :=
  if query_data > 223 then .error 20
  else if query_data ∈ sensorWriteKeys then .handled
  else if query_data ∈ sensorReadKeys then .error 14
  else .error 31

/-- Round-half-to-even on the integer grid, the rounding of Python's
built-in `round` on exact values. -/
def roundHalfEven (q : ℚ) : ℤ :=
  if Int.fract q < 1 / 2 then ⌊q⌋
  else if 1 / 2 < Int.fract q then ⌊q⌋ + 1
  else if ⌊q⌋ % 2 = 0 then ⌊q⌋ else ⌊q⌋ + 1

/-- Modelled from the spec: `round(v, d)` of §8 property 1, Python's
round to `d` decimal places (idealised over exact rationals with the
documented round-half-to-even tie break). -/
def pyRound (d : ℕ) (q : ℚ) : ℚ :=
  (roundHalfEven (q * 10 ^ d) : ℚ) / 10 ^ d

/-- Truncation of a rational toward zero at `d` decimal places — what
`int_to_mm ∘ mm_to_int` actually computes on in-range values. -/
def truncTo (d : ℕ) (q : ℚ) : ℚ :=
  (pyInt (q * 10 ^ d) : ℚ) / 10 ^ d

/-- Modelled from the spec: the effective bank index of §4.2,
`2·BankB + 1·BankA` where BankA (resp. BankB) is the OR of the external
input lines whose function assignment is BankA (resp. BankB). -/
def effective_bank_index_spec (s : SensorUnit) : ℕ :=
  2 * (cond s.bank_b 1 0) + 1 * (cond s.bank_a 1 0)

/-- A default amplifier state mirroring the IL-030 construction defaults
(decimal position 3, raw value 0, bank defaults, no errors); concrete
states used by individual theorems are updates of this one. -/
def defaultSensor : SensorUnit where
  internal_error := 0
  raw_value := some 0
  judgment_value := some 0
  decimal_position := 3
  stored_laser_emission_stop := false
  external_input_use_user_settings := false
  external_input_1 := false
  external_input_2 := false
  external_input_3 := false
  external_input_4 := false
  external_input_1_setting := 0
  external_input_2_setting := 0
  external_input_3_setting := 0
  external_input_4_setting := 0
  switch_banks_via_external_input := false
  active_bank_setting := 0
  banks := fun _ => ⟨5, -5, 0, 10, -10⟩
  zero_shift_saved_in_memory := false
  zero_shifting_result := .NORMAL_TERMINATION
  eeprom_write_result := .NORMAL_TERMINATION
  next_eeprom_write := none
  timing_input := false
  calculation_value := some 0
  hold_value := none
  hold_peak := none
  hold_bottom := none
  currently_sampling := true
  error_during_sampling := false
  is_main_unit := true
  key_locked := false
  stored_timing_input := false
  subdisplay_screen_mode := 0
  future_transistor_mode := 0
  future_analog_output_mode := 0
  transistor_mode := 0
  analog_output_mode := 0
  tolerance_setting_range := 1 / 5
  calibration_use_user_settings := false
  calibration_set_1 := 0
  calibration_set_2 := 5
  calc_calibration_mode := 0
  calc_2p_calibration_set_1 := 5
  calc_2p_calibration_set_2 := 10
  calc_3p_calibration_set_1 := 5
  calc_3p_calibration_set_3 := 10
  calculation_mode := 0
  reversed_measurement_direction := false
  sampling_cycle := 0
  filter_setting := 4
  output_mode_normally_closed := false
  hold_function_setting := 0
  auto_trigger_level := 1
  timing_input_on_edge := false
  delay_timer_setting := 0
  timer_duration := 60
  hysteresis := 0
  analog_output_scaling_mode := 0
  free_analog_upper_limit := 10
  free_analog_lower_limit := -10
  mutual_interference_prevention_active := false
  display_digit_setting := 0
  power_saving_mode := 0
  head_display_mode := 0
  display_color := 0
  diff_count_filter_timer_duration := 10
  high_pass_cutoff_frequency := 3
  alarm_setting := 0
  alarm_count := 7

section Lemmas

theorem fixedDigits_length (w n : ℕ) : (fixedDigits w n).length = w := by
  simp [fixedDigits]

theorem digitChar_isAsciiDigit (m : ℕ) (h : m < 10) :
    isAsciiDigit (Char.ofNat (48 + m)) = true := by
  interval_cases m <;> decide

theorem fixedDigits_all_digits (w n : ℕ) :
    ∀ c ∈ fixedDigits w n, isAsciiDigit c = true := by
  intro c hc
  simp only [fixedDigits, List.mem_map, List.mem_reverse, List.mem_range]
    at hc
  obtain ⟨i, _, rfl⟩ := hc
  exact digitChar_isAsciiDigit _ (Nat.mod_lt _ (by norm_num))

theorem pyPadNum_length (w n : ℕ) (h : n < 10 ^ w) :
    (pyPadNum w n).length = w := by
  rw [pyPadNum, if_pos h, fixedDigits_length]

theorem pySignedPad_length (w : ℕ) (n : ℤ) (hw : 1 ≤ w)
    (h : n.natAbs < 10 ^ (w - 1)) : (pySignedPad w n).length = w := by
  rw [pySignedPad, List.length_cons, if_pos h, fixedDigits_length]
  omega

theorem pyInt_le {q : ℚ} {b : ℤ} (h : q ≤ (b : ℚ)) : pyInt q ≤ b := by
  unfold pyInt
  split
  · exact_mod_cast (Int.floor_le_floor h).trans_eq (Int.floor_intCast b)
  · exact_mod_cast (Int.ceil_le_ceil h).trans_eq (Int.ceil_intCast b)

theorem le_pyInt {q : ℚ} {a : ℤ} (h : (a : ℚ) ≤ q) : a ≤ pyInt q := by
  unfold pyInt
  split
  · exact_mod_cast (Int.floor_intCast a).symm.trans_le (Int.floor_le_floor h)
  · exact_mod_cast (Int.ceil_intCast a).symm.trans_le (Int.ceil_le_ceil h)

theorem pyInt_intCast (n : ℤ) : pyInt (n : ℚ) = n := by
  unfold pyInt
  split
  · exact Int.floor_intCast n
  · exact Int.ceil_intCast n

/-- `mm_to_int` always lands in the nine-digit-safe band
`[-99999, 99999]`; in particular every sentinel does. -/
theorem mm_to_int_bounds (s : SensorUnit) (v : Option ℚ) :
    -99999 ≤ s.mm_to_int v ∧ s.mm_to_int v ≤ 99999 := by
  unfold SensorUnit.mm_to_int
  match v with
  | none => norm_num
  | some w =>
    simp only
    split
    · norm_num
    · split
      · norm_num
      · rename_i h1 h2
        have hd : (0 : ℚ) < 10 ^ s.decimal_position := by positivity
        have hup : w ≤ s.upper_bound := not_lt.mp h1
        have hlo : s.lower_bound ≤ w := not_lt.mp h2
        have hub : w * 10 ^ s.decimal_position ≤ ((99999 : ℤ) : ℚ) := by
          have := (le_div_iff₀ hd).mp
            (by simpa [SensorUnit.upper_bound, int_to_mm] using hup)
          push_cast
          linarith
        have hlb : (((-99999 : ℤ) : ℚ)) ≤ w * 10 ^ s.decimal_position := by
          have := (div_le_iff₀ hd).mp
            (by simpa [SensorUnit.lower_bound, int_to_mm] using hlo)
          push_cast
          linarith
        exact ⟨le_pyInt hlb, pyInt_le hub⟩

/-- Every value `judgment_value_for_communication_unit` can produce fits
in nine decimal digits. -/
theorem jvfcu_natAbs_lt (s : SensorUnit) :
    s.judgment_value_for_communication_unit.natAbs < 10 ^ 9 := by
  unfold SensorUnit.judgment_value_for_communication_unit
  split
  · decide
  · split
    · decide
    · split
      · decide
      · split
        · decide
        · have := mm_to_int_bounds s s.judgment_value
          omega

/-- A successful `parseQuery` pins the first two request characters to
the command mnemonic. -/
theorem parseQuery_mnemonic {l : List Char} {cmd : Command}
    (h : parseQuery l = some cmd) : l.take 2 = cmd.mnemonic := by
  unfold parseQuery at h
  split at h
  · rename_i h1
    injection h with h2
    subst h2
    subst h1
    rfl
  · split at h
    · rename_i h1
      injection h with h2
      subst h2
      subst h1
      rfl
    · split at h
      · split at h
        · injection h with h2
          subst h2
          rfl
        · exact Option.noConfusion h
      · split at h
        · injection h with h2
          subst h2
          rfl
        · exact Option.noConfusion h
      · split at h
        · injection h with h2
          subst h2
          rfl
        · exact Option.noConfusion h
      · exact Option.noConfusion h

theorem pySignedPad_head (w : ℕ) (n : ℤ) :
    (pySignedPad w n).head? = some (if n < 0 then '-' else '+') := rfl

theorem pySignedPad_tail_digits (w : ℕ) (n : ℤ)
    (h : n.natAbs < 10 ^ (w - 1)) :
    ∀ c ∈ (pySignedPad w n).tail, isAsciiDigit c = true := by
  rw [pySignedPad]
  simp only [List.tail_cons, if_pos h]
  exact fixedDigits_all_digits _ _

/-- The representable band is nonempty: `lower_bound < upper_bound`. -/
theorem lower_bound_lt_upper_bound (s : SensorUnit) :
    s.lower_bound < s.upper_bound := by
  have hd : (0 : ℚ) < 10 ^ s.decimal_position := by positivity
  rw [SensorUnit.lower_bound, SensorUnit.upper_bound, int_to_mm, int_to_mm]
  push_cast
  rw [div_lt_div_iff_of_pos_right hd]
  norm_num

theorem defaultSensor_lower :
    defaultSensor.lower_bound = -(99999 / 1000 : ℚ) := by
  norm_num [defaultSensor, SensorUnit.lower_bound, int_to_mm]

theorem defaultSensor_upper :
    defaultSensor.upper_bound = (99999 / 1000 : ℚ) := by
  norm_num [defaultSensor, SensorUnit.upper_bound, int_to_mm]

theorem defaultSensor_over : defaultSensor.value_over_range = false := by
  rw [show defaultSensor.value_over_range =
      decide ((0 : ℚ) > defaultSensor.upper_bound) from rfl,
    defaultSensor_upper, decide_eq_false_iff_not]
  norm_num

theorem defaultSensor_under : defaultSensor.value_under_range = false := by
  rw [show defaultSensor.value_under_range =
      decide ((0 : ℚ) < defaultSensor.lower_bound) from rfl,
    defaultSensor_lower, decide_eq_false_iff_not]
  norm_num

end Lemmas

/-- C1: every request line that does not match the command grammar is
answered with `ER,<cc>,255\r\n`, where `<cc>` is the leading two
characters of the line (`line.take 2`), and the engine never reaches the
dispatch stage — so no register is read or written. -/
theorem C1_invalid_query_rejected (internal_error : ℕ) (line : List Char)
    (h : parseQuery line = none) :
    handle_query internal_error line =
      .reply ('E' :: 'R' :: ',' :: (line.take 2
        ++ ',' :: '2' :: '5' :: '5' :: ['\r', '\n']))
    ∧ ∀ cmd, handle_query internal_error line ≠ .dispatch cmd := by
  have hq : handle_query internal_error line =
      .reply (errorReply (line.take 2) 255) := by
    unfold handle_query
    rw [h]
  constructor
  · rw [hq]
    rfl
  · intro cmd
    rw [hq]
    simp

/-- C1 witness: the malformed line `GARBAGE\r\n` is rejected with
`ER,GA,255\r\n`. -/
theorem C1_witness :
    handle_query 0 ['G', 'A', 'R', 'B', 'A', 'G', 'E', '\r', '\n'] =
      .reply ('E' :: 'R' :: ',' :: ('G' :: 'A'
        :: ',' :: '2' :: '5' :: '5' :: ['\r', '\n'])) :=
  (C1_invalid_query_rejected 0
    ['G', 'A', 'R', 'B', 'A', 'G', 'E', '\r', '\n'] (by rfl)).1

/-- C2: the amplifier register dispatch of `handle_read`/`handle_write`:
indices above 223 give error 020 on both paths; an index in both key
sets proceeds on both paths; reading a write-only index gives 016;
writing a read-only index gives 014; an index in neither set gives
031. -/
theorem C2_register_dispatch (q : ℕ) :
    (223 < q → sensor_handle_read_dispatch q = .error 20
      ∧ sensor_handle_write_dispatch q = .error 20)
    ∧ (q ≤ 223 → q ∈ sensorReadKeys → q ∈ sensorWriteKeys →
        sensor_handle_read_dispatch q = .handled
        ∧ sensor_handle_write_dispatch q = .handled)
    ∧ (q ≤ 223 → q ∈ sensorReadKeys → q ∉ sensorWriteKeys →
        sensor_handle_read_dispatch q = .handled
        ∧ sensor_handle_write_dispatch q = .error 14)
    ∧ (q ≤ 223 → q ∈ sensorWriteKeys → q ∉ sensorReadKeys →
        sensor_handle_read_dispatch q = .error 16
        ∧ sensor_handle_write_dispatch q = .handled)
    ∧ (q ≤ 223 → q ∉ sensorReadKeys → q ∉ sensorWriteKeys →
        sensor_handle_read_dispatch q = .error 31
        ∧ sensor_handle_write_dispatch q = .error 31) := by
  refine ⟨fun h => ?_, fun h hr hw => ?_, fun h hr hw => ?_,
    fun h hw hr => ?_, fun h hr hw => ?_⟩ <;>
    simp_all [sensor_handle_read_dispatch, sensor_handle_write_dispatch,
      Nat.not_lt.mpr]

/-- C2 witness: index 37 (P.V.) is read-only — reading proceeds, writing
fails with 014. -/
theorem C2_witness :
    sensor_handle_read_dispatch 37 = .handled
    ∧ sensor_handle_write_dispatch 37 = .error 14 :=
  (C2_register_dispatch 37).2.2.1 (by norm_num) (by decide) (by decide)

/-- C4: a grammatically valid SR or SW request is answered with
`ER,<cmd>,254\r\n` when the communication unit's `internal_error` is not
`NO_ERROR`; the dispatch stage (and hence any register read or write) is
never reached. -/
theorem C4_internal_error_blocks (internal_error : ℕ) (line : List Char)
    (cmd : Command) (hp : parseQuery line = some cmd)
    (_hsw : (∃ i q, cmd = .SR i q) ∨ (∃ i q v, cmd = .SW i q v))
    (hie : internal_error ≠ 0) :
    handle_query internal_error line =
      .reply ('E' :: 'R' :: ',' :: (cmd.mnemonic
        ++ ',' :: '2' :: '5' :: '4' :: ['\r', '\n']))
    ∧ ∀ c, handle_query internal_error line ≠ .dispatch c := by
  have hq : handle_query internal_error line =
      .reply (errorReply (line.take 2) 254) := by
    simp only [handle_query, hp]
    rw [if_pos hie]
  rw [parseQuery_mnemonic hp] at hq
  constructor
  · rw [hq]
    rfl
  · intro c
    rw [hq]
    simp

/-- C4 witness: with bus error 51 set, the valid request `SR,01,037\r\n`
is answered with `ER,SR,254\r\n`. -/
theorem C4_witness :
    handle_query 51 ['S', 'R', ',', '0', '1', ',', '0', '3', '7',
        '\r', '\n'] =
      .reply ('E' :: 'R' :: ',' :: ('S' :: 'R'
        :: ',' :: '2' :: '5' :: '4' :: ['\r', '\n'])) :=
  (C4_internal_error_blocks 51 _ (.SR ['0', '1'] ['0', '3', '7'])
    (by rfl) (Or.inl ⟨_, _, rfl⟩) (by norm_num)).1

/-- C5 counterexample: an amplifier with bank switching via external
input enabled, user settings enabled, external input 1 assigned to BankA
and high, and stored bank setting 0: the spec formula `2·BankB + 1·BankA`
gives 1, but the index actually used (`active_bank_index`, which also
feeds thresholds, shift target and register #043) is the stored 0. -/
theorem C5_counterexample :
    (let s := { defaultSensor with
        switch_banks_via_external_input := true
        external_input_use_user_settings := true
        external_input_1 := true
        external_input_1_setting := EXT_BANK_A };
      s.switch_banks_via_external_input = true
      ∧ s.external_input_use_user_settings = true
      ∧ effective_bank_index_spec s = 1
      ∧ (s.active_bank_index : ℕ) = 0
      ∧ (s.active_bank_index : ℕ) ≠ effective_bank_index_spec s) := by
  refine ⟨rfl, rfl, by decide, rfl, by decide⟩

/-- C5 (amended): the effective bank index used by derived outputs
(thresholds, shift target, register #043) is the stored
`active_bank_setting`, even when both external-input bank-switching flags
are set; the computed `2·BankB + 1·BankA` value is discarded. -/
theorem C5_amended (s : SensorUnit)
    (_h1 : s.switch_banks_via_external_input = true)
    (_h2 : s.external_input_use_user_settings = true) :
    s.active_bank_index = s.active_bank_setting
    ∧ s.threshold_high = (s.banks s.active_bank_setting).threshold_high
    ∧ s.threshold_low = (s.banks s.active_bank_setting).threshold_low
    ∧ s.shift_target = (s.banks s.active_bank_setting).shift_target
    ∧ s.read_043_bank_status = (s.active_bank_setting : ℤ) :=
  ⟨rfl, rfl, rfl, rfl, rfl⟩

/-- C5 witness: the amended statement at the counterexample state. -/
theorem C5_witness :
    (let s := { defaultSensor with
        switch_banks_via_external_input := true
        external_input_use_user_settings := true
        external_input_1 := true
        external_input_1_setting := EXT_BANK_A };
      s.active_bank_index = s.active_bank_setting
      ∧ s.threshold_high = (s.banks s.active_bank_setting).threshold_high
      ∧ s.threshold_low = (s.banks s.active_bank_setting).threshold_low
      ∧ s.shift_target = (s.banks s.active_bank_setting).shift_target
      ∧ s.read_043_bank_status = (s.active_bank_setting : ℤ)) :=
  C5_amended _ rfl rfl

/-- C7 counterexample: the fully legal SR reply `SR,01,037,+000000000`
followed by CR LF has 22 characters, not the 23 the claim states. -/
theorem C7_counterexample :
    (CommunicationUnit.response_SR_line 1 37 0).length = 22
    ∧ (CommunicationUnit.response_SR_line 1 37 0).length ≠ 23 := by
  constructor
  · rfl
  · decide

/-- C7 (amended): every legal SR reply `SR,ii,qqq,svvvvvvvvv\r\n` has
total length 22 (not 23), and the wire integer of the ten-character field
round-trips through the fixed-point codec:
`mm_to_int (int_to_mm n) = n` on the codec's value band. -/
theorem C7_amended (id qd : ℕ) (n : ℤ) (s : SensorUnit)
    (hid : id < 100) (hq : qd < 1000)
    (hn1 : -99999 ≤ n) (hn2 : n ≤ 99999) :
    (CommunicationUnit.response_SR_line id qd n).length = 22
    ∧ s.mm_to_int (some (int_to_mm s.decimal_position n)) = n := by
  have e2 : (10 : ℕ) ^ 2 = 100 := by norm_num
  have e3 : (10 : ℕ) ^ 3 = 1000 := by norm_num
  have e9 : (10 : ℕ) ^ 9 = 1000000000 := by norm_num
  have hid2 : id < 10 ^ 2 := by rw [e2]; exact hid
  have hq3 : qd < 10 ^ 3 := by rw [e3]; exact hq
  have hnat : n.natAbs < 10 ^ 9 := by rw [e9]; omega
  constructor
  · rw [CommunicationUnit.response_SR_line]
    simp [pyPadNum_length 2 id hid2, pyPadNum_length 3 qd hq3,
      pySignedPad_length 10 n (by norm_num) hnat]
  · have hd : (0 : ℚ) < 10 ^ s.decimal_position := by positivity
    have hle : int_to_mm s.decimal_position n ≤ s.upper_bound := by
      rw [int_to_mm, SensorUnit.upper_bound, int_to_mm]
      have hn2q : (n : ℚ) ≤ ((99999 : ℤ) : ℚ) := by exact_mod_cast hn2
      gcongr
    have hge : s.lower_bound ≤ int_to_mm s.decimal_position n := by
      rw [int_to_mm, SensorUnit.lower_bound, int_to_mm]
      have hn1q : (((-99999 : ℤ)) : ℚ) ≤ (n : ℚ) := by exact_mod_cast hn1
      gcongr
    simp only [SensorUnit.mm_to_int]
    rw [if_neg (not_lt.mpr hle), if_neg (not_lt.mpr hge), int_to_mm,
      div_mul_cancel₀ _ (ne_of_gt hd), pyInt_intCast]

/-- C7 witness: the amended statement at the reply `SR,01,037` with
value 0 on the default amplifier. -/
theorem C7_witness :
    (CommunicationUnit.response_SR_line 1 37 0).length = 22
    ∧ defaultSensor.mm_to_int
        (some (int_to_mm defaultSensor.decimal_position 0)) = 0 :=
  C7_amended 1 37 0 defaultSensor (by norm_num) (by norm_num)
    (by norm_num) (by norm_num)

/-- C8 counterexample: writing 1 to register 001 while the raw value is
absent terminates normally with the SW reply (the result flag is merely
set to ABNORMAL_TERMINATION); no `NonExecutableStateError` (012) — nor
any other exception — is raised, contradicting the claimed SW failure. -/
theorem C8_counterexample :
    (let s := { defaultSensor with raw_value := none };
      SensorUnit.write_001_zero_shift_execution_request 0 s 1 =
        .ok { s with zero_shifting_result := .ABNORMAL_TERMINATION }
      ∧ SensorUnit.write_001_zero_shift_execution_request 0 s 1 ≠
          .error 12) := by
  refine ⟨rfl, fun h => ?_⟩
  exact Except.noConfusion h

/-- C8 (amended): writing 1 to register 001 sets the effective bank's
shift target to the current raw value and the zero-shift result to
NORMAL_TERMINATION; when the raw value is absent the operation records
ABNORMAL_TERMINATION but the SW command still succeeds — no error (in
particular no 012) is raised.  Any setting value other than 1 fails with
error 009. -/
theorem C8_amended (now : ℚ) (s : SensorUnit) :
    (∀ v : ℚ, s.raw_value = some v →
      (SensorUnit.write_001_zero_shift_execution_request now s 1).map
          (fun u => ((u.banks s.active_bank_index).shift_target,
            u.zero_shifting_result))
        = .ok (v, .NORMAL_TERMINATION))
    ∧ (s.raw_value = none →
      (SensorUnit.write_001_zero_shift_execution_request now s 1).map
          (fun u => u.zero_shifting_result)
        = .ok .ABNORMAL_TERMINATION
      ∧ ∀ e, SensorUnit.write_001_zero_shift_execution_request now s 1 ≠
          .error e)
    ∧ (∀ m : ℤ, m ≠ 1 →
      SensorUnit.write_001_zero_shift_execution_request now s m =
        .error 9) := by
  refine ⟨fun v hv => ?_, fun hn => ⟨?_, fun e he => ?_⟩, fun m hm => ?_⟩
  · simp only [SensorUnit.write_001_zero_shift_execution_request,
      SensorUnit.change_shift_target, SensorUnit.start_eeprom_write,
      SensorUnit.active_bank_index]
    rw [if_neg (by norm_num)]
    simp only [hv, Option.getD_none]
    by_cases hz : s.zero_shift_saved_in_memory <;>
      simp [hz, Except.map, Function.update_same]
  · simp only [SensorUnit.write_001_zero_shift_execution_request]
    rw [if_neg (by norm_num)]
    simp only [hn]
    rfl
  · simp only [SensorUnit.write_001_zero_shift_execution_request] at he
    rw [if_neg (by norm_num)] at he
    revert he
    simp [hn]
  · rw [SensorUnit.write_001_zero_shift_execution_request, if_pos hm]

/-- C8 witness: the amended statement on the default amplifier (raw value
present and 0): the active bank's shift target becomes 0 and the result
flag reads NORMAL_TERMINATION; setting value 2 is rejected with 009. -/
theorem C8_witness :
    (SensorUnit.write_001_zero_shift_execution_request 0 defaultSensor
        1).map
        (fun u => ((u.banks defaultSensor.active_bank_index).shift_target,
          u.zero_shifting_result))
      = .ok (0, .NORMAL_TERMINATION)
    ∧ SensorUnit.write_001_zero_shift_execution_request 0 defaultSensor
        2 = .error 9 :=
  ⟨(C8_amended 0 defaultSensor).1 0 rfl,
    (C8_amended 0 defaultSensor).2.2 2 (by norm_num)⟩

/-- C3: the wire-formatted judgment value (used for M0/MS through
`stringified_value` and for bus registers #044..#058): +100000000 when
any internal error is present; else −99999998 when the value is invalid
(laser off or P.V. absent); else +99999999 when P.V. exceeds the upper
bound; else +99999999 (not −99999999) when P.V. is below the lower
bound; else the fixed-point integer of P.V., which lies within ±99999;
always printed as a sign plus nine zero-padded digits. -/
theorem C3_wire_judgment_value (s : SensorUnit) :
    (s.internal_error ≠ 0 →
      s.judgment_value_for_communication_unit = 100000000)
    ∧ (s.internal_error = 0 → s.value_invalid = true →
      s.judgment_value_for_communication_unit = -99999998)
    ∧ (s.internal_error = 0 → s.value_invalid = false →
        s.value_over_range = true →
      s.judgment_value_for_communication_unit = 99999999)
    ∧ (s.internal_error = 0 → s.value_invalid = false →
        s.value_over_range = false → s.value_under_range = true →
      s.judgment_value_for_communication_unit = 99999999)
    ∧ (s.internal_error = 0 → s.value_invalid = false →
        s.value_over_range = false → s.value_under_range = false →
      s.judgment_value_for_communication_unit = s.mm_to_int s.judgment_value
      ∧ -99999 ≤ s.judgment_value_for_communication_unit
      ∧ s.judgment_value_for_communication_unit ≤ 99999)
    ∧ s.value_invalid = (!s.laser_active || s.judgment_value.isNone)
    ∧ s.stringified_value =
        pySignedPad 10 s.judgment_value_for_communication_unit
    ∧ s.stringified_value.length = 10
    ∧ s.stringified_value.head? = some
        (if s.judgment_value_for_communication_unit < 0 then '-' else '+')
    ∧ (∀ c ∈ s.stringified_value.tail, isAsciiDigit c = true)
    ∧ (∀ (c : CommunicationUnit) (i : ℕ),
        c.connected_sensors[i]? = some s →
        c.read_044_to_058_current_value_id_Y i =
          .ok s.judgment_value_for_communication_unit) := by
  refine ⟨fun h => ?_, fun h0 hi => ?_, fun h0 hi ho => ?_,
    fun h0 hi ho hu => ?_, fun h0 hi ho hu => ?_, rfl, rfl, ?_, ?_, ?_,
    fun c i hci => ?_⟩
  · rw [SensorUnit.judgment_value_for_communication_unit, if_pos h]
  · rw [SensorUnit.judgment_value_for_communication_unit,
      if_neg (by simp [h0]), if_pos hi]
  · rw [SensorUnit.judgment_value_for_communication_unit,
      if_neg (by simp [h0]), if_neg (by simp [hi]), if_pos ho]
  · rw [SensorUnit.judgment_value_for_communication_unit,
      if_neg (by simp [h0]), if_neg (by simp [hi]), if_neg (by simp [ho]),
      if_pos hu]
  · have he : s.judgment_value_for_communication_unit =
        s.mm_to_int s.judgment_value := by
      rw [SensorUnit.judgment_value_for_communication_unit,
        if_neg (by simp [h0]), if_neg (by simp [hi]),
        if_neg (by simp [ho]), if_neg (by simp [hu])]
    refine ⟨he, ?_, ?_⟩ <;> rw [he]
    · exact (mm_to_int_bounds s s.judgment_value).1
    · exact (mm_to_int_bounds s s.judgment_value).2
  · exact pySignedPad_length 10 _ (by norm_num) (jvfcu_natAbs_lt s)
  · exact pySignedPad_head 10 _
  · exact pySignedPad_tail_digits 10 _ (jvfcu_natAbs_lt s)
  · simp only [CommunicationUnit.read_044_to_058_current_value_id_Y, hci]

/-- C3 witness: an amplifier with the EEPROM error bit set reports
+100000000; the default healthy amplifier reports its fixed-point P.V. -/
theorem C3_witness :
    SensorUnit.judgment_value_for_communication_unit
      { defaultSensor with internal_error := 2 } = 100000000
    ∧ SensorUnit.judgment_value_for_communication_unit defaultSensor =
        defaultSensor.mm_to_int defaultSensor.judgment_value :=
  ⟨(C3_wire_judgment_value { defaultSensor with internal_error := 2 }).1
      (by decide),
    ((C3_wire_judgment_value defaultSensor).2.2.2.2.1 rfl rfl
      defaultSensor_over defaultSensor_under).1⟩

/-- C6 counterexample: on the default amplifier (decimal position 3) the
in-range value v = 0.0019 mm round-trips to 0.001 (`int()` truncates),
while rounding to 3 decimal places gives 0.002 — so
`int_to_mm (mm_to_int v) = round(v, decimal_position)` fails. -/
theorem C6_counterexample :
    defaultSensor.lower_bound ≤ 19 / 10000
    ∧ (19 / 10000 : ℚ) ≤ defaultSensor.upper_bound
    ∧ int_to_mm defaultSensor.decimal_position
        (defaultSensor.mm_to_int (some (19 / 10000))) = 1 / 1000
    ∧ pyRound defaultSensor.decimal_position (19 / 10000) = 2 / 1000
    ∧ int_to_mm defaultSensor.decimal_position
        (defaultSensor.mm_to_int (some (19 / 10000)))
      ≠ pyRound defaultSensor.decimal_position (19 / 10000) := by
  have hmm : defaultSensor.mm_to_int (some (19 / 10000)) = 1 := by
    simp only [SensorUnit.mm_to_int]
    rw [if_neg (by rw [defaultSensor_upper]; norm_num),
      if_neg (by rw [defaultSensor_lower]; norm_num),
      show ((19 : ℚ) / 10000 * 10 ^ defaultSensor.decimal_position) =
        19 / 10 by norm_num [defaultSensor],
      pyInt, if_pos (by norm_num), Int.floor_eq_iff]
    norm_num
  have hiv : int_to_mm defaultSensor.decimal_position
      (defaultSensor.mm_to_int (some (19 / 10000))) = 1 / 1000 := by
    rw [hmm]
    norm_num [int_to_mm, defaultSensor]
  have hf : ⌊(19 / 10 : ℚ)⌋ = 1 := by
    rw [Int.floor_eq_iff]
    norm_num
  have hfr : Int.fract ((19 : ℚ) / 10) = 9 / 10 := by
    rw [Int.fract, hf]
    norm_num
  have hr : pyRound defaultSensor.decimal_position (19 / 10000) =
      2 / 1000 := by
    rw [pyRound,
      show ((19 : ℚ) / 10000 * 10 ^ defaultSensor.decimal_position) =
        19 / 10 by norm_num [defaultSensor],
      roundHalfEven, if_neg (by rw [hfr]; norm_num),
      if_pos (by rw [hfr]; norm_num), hf]
    norm_num [defaultSensor]
  refine ⟨by rw [defaultSensor_lower]; norm_num,
    by rw [defaultSensor_upper]; norm_num, hiv, hr, ?_⟩
  rw [hiv, hr]
  norm_num

/-- C6 (amended): for every millimeter value in the representable range,
`int_to_mm (mm_to_int v)` equals v truncated toward zero at
`decimal_position` decimal places (not rounded); the reconstruction is
within one unit in the last place. -/
theorem C6_roundtrip_truncates (s : SensorUnit) (v : ℚ)
    (h1 : s.lower_bound ≤ v) (h2 : v ≤ s.upper_bound) :
    int_to_mm s.decimal_position (s.mm_to_int (some v)) =
      truncTo s.decimal_position v
    ∧ |int_to_mm s.decimal_position (s.mm_to_int (some v)) - v|
        < 1 / 10 ^ s.decimal_position := by
  have hd : (0 : ℚ) < 10 ^ s.decimal_position := by positivity
  have hmm : s.mm_to_int (some v) = pyInt (v * 10 ^ s.decimal_position) := by
    simp only [SensorUnit.mm_to_int]
    rw [if_neg (not_lt.mpr h2), if_neg (not_lt.mpr h1)]
  constructor
  · rw [hmm]
    rfl
  · rw [hmm, int_to_mm]
    set x := v * 10 ^ s.decimal_position with hx
    have hlow : x - 1 < (pyInt x : ℚ) ∧ (pyInt x : ℚ) < x + 1 := by
      unfold pyInt
      split
      · refine ⟨by exact_mod_cast Int.sub_one_lt_floor x, ?_⟩
        exact lt_of_le_of_lt (Int.floor_le x) (by linarith)
      · refine ⟨lt_of_lt_of_le (by linarith) (Int.le_ceil x), ?_⟩
        exact_mod_cast Int.ceil_lt_add_one x
    have hv : v = x / 10 ^ s.decimal_position := by
      rw [hx, mul_div_cancel_right₀ _ (ne_of_gt hd)]
    have habs : |(pyInt x : ℚ) - x| < 1 :=
      abs_sub_lt_iff.mpr ⟨by linarith [hlow.2], by linarith [hlow.1]⟩
    calc |(pyInt x : ℚ) / 10 ^ s.decimal_position - v|
        = |(pyInt x : ℚ) - x| / 10 ^ s.decimal_position := by
          rw [hv, div_sub_div_same, abs_div, abs_of_pos hd]
      _ < 1 / 10 ^ s.decimal_position := by gcongr

/-- C6 witness: the amended statement at v = 0.0019 mm on the default
amplifier. -/
theorem C6_witness :
    int_to_mm defaultSensor.decimal_position
        (defaultSensor.mm_to_int (some (19 / 10000))) =
      truncTo defaultSensor.decimal_position (19 / 10000)
    ∧ |int_to_mm defaultSensor.decimal_position
          (defaultSensor.mm_to_int (some (19 / 10000))) - 19 / 10000|
        < 1 / 10 ^ defaultSensor.decimal_position :=
  C6_roundtrip_truncates defaultSensor (19 / 10000)
    (by rw [defaultSensor_lower]; norm_num)
    (by rw [defaultSensor_upper]; norm_num)

/-- C10: `mm_to_int` is total and always lands in [−99999, 99999]: absent
values map to −99998, values above the upper bound to 99999, values below
the lower bound to −99999, in-range values to their truncated fixed-point
integer; consequently the formatted field is always exactly ten
characters (sign plus nine digits). -/
theorem C10_mm_to_int_total (s : SensorUnit) (v : Option ℚ) :
    (-99999 ≤ s.mm_to_int v ∧ s.mm_to_int v ≤ 99999)
    ∧ (v = none → s.mm_to_int v = -99998)
    ∧ (∀ w, v = some w → s.upper_bound < w → s.mm_to_int v = 99999)
    ∧ (∀ w, v = some w → w < s.lower_bound → s.mm_to_int v = -99999)
    ∧ (∀ w, v = some w → s.lower_bound ≤ w → w ≤ s.upper_bound →
        s.mm_to_int v = pyInt (w * 10 ^ s.decimal_position))
    ∧ (pySignedPad 10 (s.mm_to_int v)).length = 10 := by
  refine ⟨mm_to_int_bounds s v, fun hn => ?_, fun w hw hgt => ?_,
    fun w hw hlt => ?_, fun w hw hge hle => ?_, ?_⟩
  · rw [hn]
    rfl
  · rw [hw]
    simp only [SensorUnit.mm_to_int]
    rw [if_pos hgt]
  · rw [hw]
    have hno : ¬ s.upper_bound < w :=
      not_lt.mpr (le_of_lt (hlt.trans (lower_bound_lt_upper_bound s)))
    simp only [SensorUnit.mm_to_int]
    rw [if_neg hno, if_pos hlt]
  · rw [hw]
    simp only [SensorUnit.mm_to_int]
    rw [if_neg (not_lt.mpr hle), if_neg (not_lt.mpr hge)]
  · have hb := mm_to_int_bounds s v
    have e9 : (10 : ℕ) ^ 9 = 1000000000 := by norm_num
    refine pySignedPad_length 10 _ (by norm_num) ?_
    rw [show (10 : ℕ) - 1 = 9 from rfl, e9]
    omega

/-- C10 witness: an absent value maps to −99998 and still fills the
ten-character signed field. -/
theorem C10_witness :
    defaultSensor.mm_to_int none = -99998
    ∧ (pySignedPad 10 (defaultSensor.mm_to_int none)).length = 10 :=
  ⟨(C10_mm_to_int_total defaultSensor none).2.1 rfl,
    (C10_mm_to_int_total defaultSensor none).2.2.2.2.2⟩

end ILSim
